import Mathlib

/-!
Verification of the awis-py client library (src/awis.py and the packaged
src/awis/awis.py) against its natural-language specification.

The development shallowly embeds the pure core of the library:

* the traffic-history planner (`traffic_history_plan`), with the two
  `datetime.date.today()` reads of `traffic_history` passed explicitly as
  `today1` (line `date = datetime.date.today() - timedelta(search_range)`)
  and `today2` (the later comparison `date + timedelta(days=search_range)
  >= datetime.date.today()`); calendar dates are day numbers (`Int`),
  matching Python's exact `datetime.date`/`timedelta` day arithmetic;
* the SigV4 signer (`get_signature_key`, `create_request_signature`), over a
  full executable model of SHA-256 and HMAC-SHA256 on byte lists;
* request-URL construction (`pkgRequestUri`, `pkgCanonicalHeaders`);
* the timestamp formatting of `create_request`, whose two separate
  `datetime.datetime.utcnow()` reads are passed explicitly as two
  `UtcInstant` values;
* the traffic-history XML parser over an element-tree model of the
  document lxml produces, and the response-group validation of `url_info`.

Python exceptions are modelled with `Except`: a function that raises before
building any request returns `.error` without producing sub-queries.
-/

/-- Python error kinds raised by the embedded code paths. -/
inductive PyErr where
  | attributeError
  | valueError
  | typeError
  | nameError
  | searchRangeError
deriving DecidableEq, Repr

instance {ε α : Type} [DecidableEq ε] [DecidableEq α] : DecidableEq (Except ε α) :=
  fun x y =>
    match x, y with
    | .ok a, .ok b =>
      if h : a = b then isTrue (by rw [h]) else isFalse (fun hc => by cases hc; exact h rfl)
    | .error a, .error b =>
      if h : a = b then isTrue (by rw [h]) else isFalse (fun hc => by cases hc; exact h rfl)
    | .ok _, .error _ => isFalse (fun hc => by cases hc)
    | .error _, .ok _ => isFalse (fun hc => by cases hc)

/-! ## Module constants (src/awis.py lines 35-45, src/awis/awis.py lines 46-52) -/

/-- MAX_SEARCH_RANGE = 31: the service's per-request maximum span in days. -/
def MAX_SEARCH_RANGE : Nat := 31

/-- SERVICE_HOST = 'awis.amazonaws.com'. -/
def SERVICE_HOST : String := "awis.amazonaws.com"

/-- SERVICE_URI = '/api'. -/
def SERVICE_URI : String := "/api"

/-! ## History planner (AWIS.traffic_history, src/awis.py lines 109-135) -/

/-- One planned sub-query: the `Range` query value and the `Start` date
(as a day number) of one traffic-history sub-request. -/
structure SubQuery where
  range : Nat
  start : Int
deriving DecidableEq, Repr

/-- The sub-query build loop of `traffic_history`: `for i in range(num_requests)`
with `instance_search_range = MAX_SEARCH_RANGE if i != num_requests - 1 else
remainder` and `date += timedelta(days=instance_search_range)` after each
sub-query. Recursion is on the number of remaining iterations; the final
iteration uses `remainder`, every earlier one uses `MAX_SEARCH_RANGE`. -/
def planFrom (date : Int) (remainder : Nat) : Nat → List SubQuery
  | 0 => []
  | 1 => [⟨remainder, date⟩]
  | n + 2 => ⟨MAX_SEARCH_RANGE, date⟩ :: planFrom (date + MAX_SEARCH_RANGE) remainder (n + 1)

/-- The pre-network phase of `AWIS.traffic_history` (src/awis.py lines 109-135):
validation, default/reverse start-date computation, and the sub-query plan.
`today1` and `today2` are the two separate `datetime.date.today()` reads
(lines 113 and 119); `start_date` is the parsed `strptime` result as a day
number. `quotient, remainder = divmod(search_range, MAX_SEARCH_RANGE)` and
`num_requests = quotient + min(remainder, 1)` are Nat division and remainder,
which agree with Python `divmod` here because `search_range >= 1` whenever the
plan is reached. An `.error` result is a `SearchRangeError` raised before any
request is built.

First, the effective start date (src/awis.py lines 112-117): the explicit
start date if given (else `today1 - search_range`), shifted an additional
`search_range` days earlier when `search_reverse` is set. -/
def effective_start (today1 : Int) (search_range : Int)
    (start_date : Option Int) (search_reverse : Bool) : Int :=
  let date : Int :=
    match start_date with
    | none => today1 - search_range
    | some d => d
  if search_reverse then date - search_range else date

/-- The validation and sub-query loop of `traffic_history`, continuing
`effective_start`: reject `search_range < 1`, reject effective start plus
`search_range` reaching `today2`, and otherwise build the plan. -/
def traffic_history_plan (today1 today2 : Int) (search_range : Int)
    (start_date : Option Int) (search_reverse : Bool) : Except PyErr (List SubQuery) :=
  if search_range < 1 then .error .searchRangeError
  else
    let date : Int := effective_start today1 search_range start_date search_reverse
    if date + search_range ≥ today2 then .error .searchRangeError
    else
      let sr : Nat := search_range.toNat
      let quotient : Nat := sr / MAX_SEARCH_RANGE
      let remainder : Nat := sr % MAX_SEARCH_RANGE
      let num_requests : Nat := quotient + min remainder 1
      .ok (planFrom date remainder num_requests)

/-! ## Request timestamps (AWIS.create_request, src/awis.py lines 170-186)

The source computes `amz = self.amz_date()` and `ds = self.date_stamp`, each
of which performs its own `datetime.datetime.utcnow()` call (lines 197-199 and
216-219). The two reads are therefore two distinct instants, passed explicitly
below. -/

/-- A UTC instant as the fields `strftime` formats. -/
structure UtcInstant where
  year : Nat
  month : Nat
  day : Nat
  hour : Nat
  minute : Nat
  second : Nat
deriving DecidableEq, Repr

/-- Two-digit zero-padded decimal, as strftime renders %m, %d, %H, %M, %S. -/
def pad2 (n : Nat) : String := if n < 10 then "0" ++ toString n else toString n

/-- Four-digit zero-padded decimal, as strftime renders %Y. -/
def pad4 (n : Nat) : String :=
  if n < 10 then "000" ++ toString n
  else if n < 100 then "00" ++ toString n
  else if n < 1000 then "0" ++ toString n
  else toString n

/-- The `date_stamp` property: `utcnow().strftime('%Y%m%d')` applied to its
own clock read. -/
def date_stamp_of (t : UtcInstant) : String := pad4 t.year ++ pad2 t.month ++ pad2 t.day

/-- The `amz_date` method: `utcnow().strftime('%Y%m%dT%H%M%SZ')` applied to
its own clock read. -/
def amz_date_of (t : UtcInstant) : String :=
  date_stamp_of t ++ "T" ++ pad2 t.hour ++ pad2 t.minute ++ pad2 t.second ++ "Z"

/-- The `(amz, ds)` pair `create_request` uses for the X-Amz-Date header and
the string to sign (first component) and for the credential scope and
signing-key derivation (second component): `amz` from the first `utcnow()`
read `t1`, `ds` from the second read `t2`. -/
def create_request_stamps (t1 t2 : UtcInstant) : String × String :=
  (amz_date_of t1, date_stamp_of t2)

/-! ## Request URL construction (src/awis/awis.py lines 55-64 and 177-201)

The packaged constructor sets `self.SERVICE_ENDPOINT =
f'awis.{service_region}.amazonaws.com'` but `self.AWS_BASE_URL =
f'https://{SERVICE_HOST}{SERVICE_URI}'` with the module constant
`SERVICE_HOST = 'awis.amazonaws.com'`; `create_request` then issues
`uri = f'{self.AWS_BASE_URL}?{canonical_query}'`. The top-level src/awis.py
is identical here (`AWS_BASE_URL = 'https://' + SERVICE_HOST + SERVICE_URI`,
line 41, with the endpoint used only in the canonical headers). -/

/-- The packaged client's `self.SERVICE_ENDPOINT` for a configured region. -/
def pkgServiceEndpoint (service_region : String) : String :=
  "awis." ++ service_region ++ ".amazonaws.com"

/-- The packaged client's `self.AWS_BASE_URL`: built from the module constant
`SERVICE_HOST`, independent of the configured region. -/
def pkgAwsBaseUrl : String := "https://" ++ SERVICE_HOST ++ SERVICE_URI

/-- The request URL `create_request` builds: `AWS_BASE_URL + '?' +
canonical_query`. -/
def pkgRequestUri (canonical_query : String) : String :=
  pkgAwsBaseUrl ++ "?" ++ canonical_query

/-- The canonical headers of `create_request`:
`f'host:{self.SERVICE_ENDPOINT}\nx-amz-date:{amz}\n'`. -/
def pkgCanonicalHeaders (service_region amz : String) : String :=
  "host:" ++ pkgServiceEndpoint service_region ++ "\nx-amz-date:" ++ amz ++ "\n"

/-! ## Response-group validation (AWIS.url_info, src/awis.py lines 80-96) -/

/-- The `self.valid_response_groups` set assigned in the top-level
constructor (src/awis.py lines 53-57). -/
def valid_response_groups : List String :=
  ["RelatedLinks", "Categories", "Rank", "RankByCountry", "UsageStats",
   "AdultContent", "Speed", "Language", "OwnedDomains", "LinksInCount",
   "SiteData"]

/-- The module constant VALID_RESPONSE_GROUPS of src/awis/awis.py
(lines 40-44); same names as `valid_response_groups`. -/
def VALID_RESPONSE_GROUPS : List String := valid_response_groups

/-- UTF-8 encoding of one character, modelling Python's str.encode
behaviour byte for byte. -/
def utf8EncodeCharBytes (c : Char) : List Nat :=
  let n := c.toNat
  if n < 128 then [n]
  else if n < 2048 then [192 + n / 64, 128 + n % 64]
  else if n < 65536 then [224 + n / 4096, 128 + n / 64 % 64, 128 + n % 64]
  else [240 + n / 262144, 128 + n / 4096 % 64, 128 + n / 64 % 64, 128 + n % 64]

/-- Models `s.encode('utf-8')` as a list of byte values. -/
def utf8Bytes (s : String) : List Nat := s.data.flatMap utf8EncodeCharBytes

/-- The bytes urllib.parse.quote leaves unescaped with its default
`safe='/'`: ALPHA, DIGIT, `_.-~` and `/`. -/
def quoteSafe (b : Nat) : Bool :=
  (Nat.ble 65 b && Nat.ble b 90) || (Nat.ble 97 b && Nat.ble b 122) ||
  (Nat.ble 48 b && Nat.ble b 57) || Nat.beq b 45 || Nat.beq b 46 ||
  Nat.beq b 95 || Nat.beq b 126 || Nat.beq b 47

/-- An uppercase hexadecimal digit, as percent-escapes are rendered. -/
def hexDigitUpper (n : Nat) : Char :=
  if n < 10 then Char.ofNat (48 + n) else Char.ofNat (55 + n)

/-- Models `urllib.parse.quote(s)`: UTF-8 encode, keep safe bytes, render
every other byte as `%XX` with uppercase hex. -/
def pyQuote (s : String) : String :=
  (utf8Bytes s).foldl
    (fun acc b =>
      if quoteSafe b then acc.push (Char.ofNat b)
      else acc ++ "%" ++ String.mk [hexDigitUpper (b / 16), hexDigitUpper (b % 16)])
    ""

/-- The pre-network phase of the top-level `AWIS.url_info` (src/awis.py
lines 88-94): join the groups, validate them against
`self.valid_response_groups` (raising NameError when `set(response_groups)`
is not a subset), and otherwise build the canonical query string that the
request is then created from. -/
def url_info_query (url : String) (response_groups : List String) :
    Except PyErr String :=
  let str_response_groups := String.intercalate "," response_groups
  if response_groups.all (fun g => valid_response_groups.contains g) then
    .ok ("Action=urlInfo&ResponseGroup=" ++ pyQuote str_response_groups
          ++ "&Url=" ++ pyQuote url)
  else .error .nameError

/-! ## The packaged url_info attribute lookup (src/awis/awis.py lines 55-105)

The packaged `url_info` evaluates `self.valid_response_groups`. Python
resolves that name against the instance attributes `__init__` assigns
(lines 59-64) and the attributes of class AWIS (its methods and the
`date_stamp` property); `valid_response_groups` is defined by neither (the
valid set exists only as the module constant VALID_RESPONSE_GROUPS), so the
lookup raises AttributeError. -/

/-- The instance attributes the packaged `__init__` assigns. -/
def pkgInstanceAttrNames : List String :=
  ["access_id", "secret_access_key", "SERVICE_REGION", "SERVICE_ENDPOINT",
   "AWS_BASE_URL"]

/-- The attributes of class AWIS in src/awis/awis.py: its methods and
property. -/
def pkgClassAttrNames : List String :=
  ["get_signature_key", "url_info", "traffic_history", "bulk_request",
   "parse_traffic_history", "parse_url_info", "create_request", "amz_date",
   "sha256", "hmac_sha256", "date_stamp"]

/-- Models the attribute read `self.valid_response_groups` in the packaged
`url_info`: were the name defined on the instance or the class its value
would be the module's valid set; as it is not, the read raises
AttributeError. -/
def pkgValidResponseGroupsAttr : Except PyErr (List String) :=
  if (pkgInstanceAttrNames ++ pkgClassAttrNames).contains "valid_response_groups" then
    .ok VALID_RESPONSE_GROUPS
  else .error .attributeError

/-- The pre-network phase of the packaged `AWIS.url_info` (src/awis/awis.py
lines 98-103): join the groups, read `self.valid_response_groups`
(propagating its AttributeError), validate, and build the canonical query. -/
def pkg_url_info (url : String) (response_groups : List String) :
    Except PyErr String :=
  let str_response_groups := String.intercalate "," response_groups
  match pkgValidResponseGroupsAttr with
  | .error e => .error e
  | .ok valid =>
    if response_groups.all (fun g => valid.contains g) then
      .ok ("Action=urlInfo&ResponseGroup=" ++ pyQuote str_response_groups
            ++ "&Url=" ++ pyQuote url)
    else .error .nameError

/-! ## Traffic-history parser (AWIS.parse_traffic_history, src/awis.py
lines 143-163, src/awis/awis.py lines 155-170)

The input is modelled as the element tree lxml's `ET.parse` yields for a
well-formed document: every element has a (possibly namespace-qualified) tag,
optional text, and a list of child elements in document order. lxml renders a
namespaced tag as the literal string `{namespace-uri}LocalName`, which is how
tags are compared below. -/

/-- An XML element as lxml presents it. -/
inductive Xml where
  | elem (tag : String) (text : Option String) (children : List Xml)

/-- The tag of an element. -/
def Xml.tag : Xml → String
  | .elem t _ _ => t

/-- The text of an element (`.text`, None when absent). -/
def Xml.text : Xml → Option String
  | .elem _ tx _ => tx

/-- The child elements of an element, in document order. -/
def Xml.children : Xml → List Xml
  | .elem _ _ cs => cs

mutual
/-- Models `root.iter(tag)`: every element of the subtree (the element itself
included) whose tag matches, in document order. -/
def iterTag (t : String) : Xml → List Xml
  | .elem tg tx cs => (if tg = t then [Xml.elem tg tx cs] else []) ++ iterTagL t cs
/-- `iterTag` over a list of sibling subtrees, in order. -/
def iterTagL (t : String) : List Xml → List Xml
  | [] => []
  | c :: cs => iterTag t c ++ iterTagL t cs
end

/-- Models `element.find(tag)`: the first child with the given tag. -/
def findTag (t : String) (cs : List Xml) : Option Xml :=
  cs.find? (fun c => c.tag == t)

/-- Models `element.find(t1 + '/' + t2)`: the first grandchild reached by a
child tagged `t1` followed by its child tagged `t2`, in document order. -/
def findPath2 (t1 t2 : String) (cs : List Xml) : Option Xml :=
  ((cs.filter (fun c => c.tag == t1)).foldr
    (fun a acc => a.children.filter (fun c => c.tag == t2) ++ acc) []).head?

/-- The lxml namespace prefix used by the parser:
`aws_tag = '{http://awis.amazonaws.com/doc/2005-07-11}'`. -/
def aws_tag : String := "\x7bhttp://awis.amazonaws.com/doc/2005-07-11\x7d"

/-- The namespaced tag the parser iterates over: `aws_tag + 'Data'`. -/
def dataTag : String := aws_tag ++ "Data"

/-- Decimal digit characters only (and at least one) make up a valid numeric
token below. -/
def allDigitChars (cs : List Char) : Bool := cs.all Char.isDigit

/-- The value of a decimal digit string. -/
def natFromDigits (cs : List Char) : Nat :=
  cs.foldl (fun a c => a * 10 + (c.toNat - 48)) 0

/-- Models the Python builtin `int(s)` on decimal literals: an optional sign
followed by digits; anything else raises ValueError (`none`). -/
def pyIntOfString (s : String) : Option Int :=
  match s.data with
  | '-' :: rest =>
    if !rest.isEmpty && allDigitChars rest then some (-(natFromDigits rest : Int)) else none
  | '+' :: rest =>
    if !rest.isEmpty && allDigitChars rest then some (natFromDigits rest : Int) else none
  | cs =>
    if !cs.isEmpty && allDigitChars cs then some (natFromDigits cs : Int) else none

/-- Splits a character list at its only `.`, failing when a second `.`
occurs; a list with no dot has an empty fractional part. -/
def splitDot : List Char → Option (List Char × List Char)
  | [] => some ([], [])
  | '.' :: rest => if rest.contains '.' then none else some ([], rest)
  | c :: rest => (splitDot rest).map (fun p => (c :: p.1, p.2))

/-- The exact value of an unsigned decimal literal with integer and
fractional digit parts (at least one digit in total). -/
def decimalParts (intPart fracPart : List Char) : Option Rat :=
  if (!intPart.isEmpty || !fracPart.isEmpty)
      && allDigitChars intPart && allDigitChars fracPart then
    some ((natFromDigits intPart : Rat)
      + (natFromDigits fracPart : Rat) / ((10 : Rat) ^ fracPart.length))
  else none

/-- Models the Python builtin `float(s)` on plain decimal literals, with the
exact rational value of the literal (IEEE-754 and this model agree whenever
the literal's value is exactly representable, as in every document this
development evaluates); anything else raises ValueError (`none`). -/
def pyFloatOfString (s : String) : Option Rat :=
  let signAndDigits : Int × List Char :=
    match s.data with
    | '-' :: rest => (-1, rest)
    | '+' :: rest => (1, rest)
    | cs => (1, cs)
  match splitDot signAndDigits.2 with
  | none => none
  | some p => (decimalParts p.1 p.2).map (fun r => (signAndDigits.1 : Rat) * r)

/-- Models taking `.text` of a `find` result: `find` returning None makes the
attribute access raise AttributeError. -/
def textOfFind (x : Option Xml) : Except PyErr (Option String) :=
  match x with
  | none => .error .attributeError
  | some e => .ok e.text

/-- Models `int(text)`: `int(None)` raises TypeError, an unparseable string
raises ValueError. -/
def pyIntText (t : Option String) : Except PyErr Int :=
  match t with
  | none => .error .typeError
  | some s =>
    match pyIntOfString s with
    | none => .error .valueError
    | some n => .ok n

/-- Models `float(text)`: `float(None)` raises TypeError, an unparseable
string raises ValueError. -/
def pyFloatText (t : Option String) : Except PyErr Rat :=
  match t with
  | none => .error .typeError
  | some s =>
    match pyFloatOfString s with
    | none => .error .valueError
    | some r => .ok r

/-- The TrafficHistory record (the namedtuple of src/awis/awis.py
lines 36-38): date, page views per million, page views per user, rank,
reach per million. The date is `.text` of the Date element, which Python
leaves as None when the element is empty. -/
structure TrafficHistory where
  date : Option String
  page_view_per_million : Int
  page_view_per_user : Rat
  rank : Int
  reach : Int
deriving DecidableEq, Repr

/-- One record from one `Data` element, with the extraction steps in source
order (src/awis/awis.py lines 162-168): Date text, the PageViews child, its
PerMillion as int and PerUser as float, Rank as int, and Reach/PerMillion as
int. Every missing element or unparseable text raises. -/
def extractRecord (element : Xml) : Except PyErr TrafficHistory := do
  let date ← textOfFind (findTag (aws_tag ++ "Date") element.children)
  let pageview_el ←
    match findTag (aws_tag ++ "PageViews") element.children with
    | none => Except.error PyErr.attributeError
    | some e => Except.ok e
  let pageview_pmil ← pyIntText (← textOfFind (findTag (aws_tag ++ "PerMillion") pageview_el.children))
  let pageview_puser ← pyFloatText (← textOfFind (findTag (aws_tag ++ "PerUser") pageview_el.children))
  let rank ← pyIntText (← textOfFind (findTag (aws_tag ++ "Rank") element.children))
  let reach ← pyIntText (← textOfFind (findPath2 (aws_tag ++ "Reach") (aws_tag ++ "PerMillion") element.children))
  return ⟨date, pageview_pmil, pageview_puser, rank, reach⟩

/-- Maps an Except-valued function over a list, stopping at the first
raised error, as the parser's accumulation loop does. -/
def mapExcept {α β ε : Type} (f : α → Except ε β) : List α → Except ε (List β)
  | [] => .ok []
  | x :: xs =>
    match f x with
    | .error e => .error e
    | .ok y =>
      match mapExcept f xs with
      | .error e => .error e
      | .ok ys => .ok (y :: ys)

/-- `AWIS.parse_traffic_history` on the parsed element tree: one record per
`{namespace}Data` element of `root.iter`, in document order; the first
failing extraction propagates as the raised error. -/
def parse_traffic_history (root : Xml) : Except PyErr (List TrafficHistory) :=
  mapExcept extractRecord (iterTag dataTag root)

/-- True exactly on raised (`.error`) results. -/
def exceptIsError {ε α : Type} : Except ε α → Bool
  | .error _ => true
  | .ok _ => false

/-! ## SHA-256, HMAC-SHA256 and the signer (src/awis.py lines 59-78,
179-184, 201-210; src/awis/awis.py lines 66-88, 186-188, 208-217)

An executable model of SHA-256 over byte lists (each byte a `Nat < 256`,
words as `Nat` with explicit `% 2^32`), HMAC-SHA256 as Python's hmac module
computes it, and the signer built on them. -/

/-- Two to the thirty-second, the word modulus of SHA-256. -/
def w32 : Nat := 4294967296

/-- Right rotation of a 32-bit word. -/
def rotr (n x : Nat) : Nat := ((x >>> n) ||| (x <<< (32 - n))) % w32

/-- The SHA-256 choice function. -/
def shaCh (x y z : Nat) : Nat := (x &&& y) ^^^ ((x ^^^ 4294967295) &&& z)

/-- The SHA-256 majority function. -/
def shaMaj (x y z : Nat) : Nat := (x &&& y) ^^^ (x &&& z) ^^^ (y &&& z)

/-- The SHA-256 compression Sigma-0. -/
def bigSigma0 (x : Nat) : Nat := rotr 2 x ^^^ rotr 13 x ^^^ rotr 22 x

/-- The SHA-256 compression Sigma-1. -/
def bigSigma1 (x : Nat) : Nat := rotr 6 x ^^^ rotr 11 x ^^^ rotr 25 x

/-- The SHA-256 schedule sigma-0. -/
def smallSigma0 (x : Nat) : Nat := rotr 7 x ^^^ rotr 18 x ^^^ (x >>> 3)

/-- The SHA-256 schedule sigma-1. -/
def smallSigma1 (x : Nat) : Nat := rotr 17 x ^^^ rotr 19 x ^^^ (x >>> 10)

/-- The SHA-256 round constants of FIPS 180-4, written in decimal. -/
def K256 : List Nat :=
  [1116352408, 1899447441, 3049323471, 3921009573, 961987163,
   1508970993, 2453635748, 2870763221, 3624381080, 310598401,
   607225278, 1426881987, 1925078388, 2162078206, 2614888103,
   3248222580, 3835390401, 4022224774, 264347078, 604807628,
   770255983, 1249150122, 1555081692, 1996064986, 2554220882,
   2821834349, 2952996808, 3210313671, 3336571891, 3584528711,
   113926993, 338241895, 666307205, 773529912, 1294757372,
   1396182291, 1695183700, 1986661051, 2177026350, 2456956037,
   2730485921, 2820302411, 3259730800, 3345764771, 3516065817,
   3600352804, 4094571909, 275423344, 430227734, 506948616,
   659060556, 883997877, 958139571, 1322822218, 1537002063,
   1747873779, 1955562222, 2024104815, 2227730452, 2361852424,
   2428436474, 2756734187, 3204031479, 3329325298]

/-- The SHA-256 initial hash state of FIPS 180-4, written in decimal. -/
def H256 : List Nat :=
  [1779033703, 3144134277, 1013904242, 2773480762,
   1359893119, 2600822924, 528734635, 1541459225]

/-- The eight big-endian bytes of a 64-bit bit-length. -/
def lenBytes64 (n : Nat) : List Nat :=
  [(n >>> 56) &&& 255, (n >>> 48) &&& 255, (n >>> 40) &&& 255,
   (n >>> 32) &&& 255, (n >>> 24) &&& 255, (n >>> 16) &&& 255,
   (n >>> 8) &&& 255, n &&& 255]

/-- SHA-256 padding: append 0x80, zeros to 56 mod 64, and the 64-bit
big-endian bit length. -/
def shaPad (msg : List Nat) : List Nat :=
  msg ++ 128 :: List.replicate ((119 - msg.length % 64) % 64) 0
      ++ lenBytes64 ((8 * msg.length) % 2 ^ 64)

/-- Splits a byte list into 64-byte blocks. -/
def chunks64 : List Nat → List (List Nat)
  | [] => []
  | b :: rest => ((b :: rest).take 64) :: chunks64 ((b :: rest).drop 64)
termination_by l => l.length
decreasing_by simp [List.length_drop]; omega

/-- Big-endian 32-bit words from bytes. -/
def bytesToWords : List Nat → List Nat
  | b0 :: b1 :: b2 :: b3 :: rest =>
    (b0 * 16777216 + b1 * 65536 + b2 * 256 + b3) :: bytesToWords rest
  | _ => []

/-- The four big-endian bytes of a 32-bit word. -/
def wordBytes (w : Nat) : List Nat :=
  [(w >>> 24) &&& 255, (w >>> 16) &&& 255, (w >>> 8) &&& 255, w &&& 255]

/-- The next message-schedule word from the words so far. -/
def nextScheduleWord (w : List Nat) : Nat :=
  (smallSigma1 (w.getD (w.length - 2) 0) + w.getD (w.length - 7) 0
    + smallSigma0 (w.getD (w.length - 15) 0) + w.getD (w.length - 16) 0) % w32

/-- Extends the 16 block words by the given number of schedule words. -/
def extendSchedule : Nat → List Nat → List Nat
  | 0, w => w
  | k + 1, w => extendSchedule k (w ++ [nextScheduleWord w])

/-- One SHA-256 compression round on the state
`[a, b, c, d, e, f, g, h]` with a round constant and schedule word. -/
def shaRound (st : List Nat) (kw : Nat × Nat) : List Nat :=
  let a := st.getD 0 0
  let b := st.getD 1 0
  let c := st.getD 2 0
  let d := st.getD 3 0
  let e := st.getD 4 0
  let f := st.getD 5 0
  let g := st.getD 6 0
  let h := st.getD 7 0
  let t1 := (h + bigSigma1 e + shaCh e f g + kw.1 + kw.2) % w32
  let t2 := (bigSigma0 a + shaMaj a b c) % w32
  [(t1 + t2) % w32, a, b, c, (d + t1) % w32, e, f, g]

/-- Compresses one 64-byte block into the hash state. -/
def shaCompress (h : List Nat) (block : List Nat) : List Nat :=
  let w := extendSchedule 48 (bytesToWords block)
  let st := (K256.zip w).foldl shaRound h
  (h.zip st).map (fun p => (p.1 + p.2) % w32)

/-- SHA-256 of a byte list, as 32 digest bytes. Models
`hashlib.sha256(data).digest()`. -/
def sha256Bytes (msg : List Nat) : List Nat :=
  ((chunks64 (shaPad msg)).foldl shaCompress H256).flatMap wordBytes

/-- HMAC-SHA256 as `hmac.new(key, msg, hashlib.sha256).digest()` computes
it: a key longer than the 64-byte block is hashed, the key is zero-padded
to the block, and the digest is `H((K xor opad) || H((K xor ipad) || msg))`. -/
def hmacSha256 (key msg : List Nat) : List Nat :=
  let k0 := if 64 < key.length then sha256Bytes key else key
  let kp := k0 ++ List.replicate (64 - k0.length) 0
  sha256Bytes ((kp.map (fun b => b ^^^ 92))
    ++ sha256Bytes ((kp.map (fun b => b ^^^ 54)) ++ msg))

/-- A lowercase hexadecimal digit, as `bytes.hex()` renders. -/
def hexDigitLower (n : Nat) : Char :=
  if n < 10 then Char.ofNat (48 + n) else Char.ofNat (87 + n)

/-- Models `bytes.hex()`: two lowercase hex digits per byte. -/
def bytesToHex (bs : List Nat) : String :=
  String.join (bs.map (fun b => String.mk [hexDigitLower (b / 16), hexDigitLower (b % 16)]))

/-- `AWIS.hmac_sha256(data, key)` (src/awis.py lines 207-210):
`hmac.new(key, data, hashlib.sha256).digest()` — note the argument order. -/
def hmac_sha256 (data key : List Nat) : List Nat := hmacSha256 key data

/-- `AWIS.get_signature_key` (src/awis.py lines 59-78): UTF-8 encode the
inputs, then `k_secret = ('AWS4' + secret).encode()`, `k_date =
HMAC(k_secret, datestamp)`, `k_region = HMAC(k_date, region_name)`,
`k_service = HMAC(k_region, service_name)`, and the returned `k_signing =
HMAC(k_service, b'aws4_request')`. -/
def get_signature_key (secret_access_key datestamp region_name service_name : String) :
    List Nat :=
  let k_secret := utf8Bytes ("AWS4" ++ secret_access_key)
  let k_date := hmacSha256 k_secret (utf8Bytes datestamp)
  let k_region := hmacSha256 k_date (utf8Bytes region_name)
  let k_service := hmacSha256 k_region (utf8Bytes service_name)
  hmacSha256 k_service (utf8Bytes "aws4_request")

/-- The final signature `create_request` computes (src/awis.py line 181):
`self.hmac_sha256(string_to_sign.encode('utf-8'), signing_key).hex()` with
`signing_key = self.get_signature_key(ds, SERVICE_REGION, SERVICE_NAME)`. -/
def create_request_signature (secret_access_key datestamp region_name service_name
    string_to_sign : String) : String :=
  bytesToHex (hmac_sha256 (utf8Bytes string_to_sign)
    (get_signature_key secret_access_key datestamp region_name service_name))

/-- The spec's reference derivation (spec section 4.1), written as the
chained composition the specification states: key0 = "AWS4" + secret,
key1 = HMAC(key0, datestamp), key2 = HMAC(key1, region), key3 =
HMAC(key2, service), signing key = HMAC(key3, "aws4_request"). -/
def sigv4ReferenceSigningKey (secret datestamp region service : String) : List Nat :=
  hmacSha256
    (hmacSha256
      (hmacSha256
        (hmacSha256 (utf8Bytes ("AWS4" ++ secret)) (utf8Bytes datestamp))
        (utf8Bytes region))
      (utf8Bytes service))
    (utf8Bytes "aws4_request")

/-! ## Concrete documents -/

/-- The minimal fixture's single `Data` element: Date 20200101,
PageViews/PerMillion 1000, PageViews/PerUser 2.5, Rank 500,
Reach/PerMillion 900. -/
def fixtureData : Xml :=
  .elem (aws_tag ++ "Data") none
    [.elem (aws_tag ++ "Date") (some "20200101") [],
     .elem (aws_tag ++ "PageViews") none
       [.elem (aws_tag ++ "PerMillion") (some "1000") [],
        .elem (aws_tag ++ "PerUser") (some "2.5") []],
     .elem (aws_tag ++ "Rank") (some "500") [],
     .elem (aws_tag ++ "Reach") none
       [.elem (aws_tag ++ "PerMillion") (some "900") []]]

/-- The minimal fixture document: a namespaced response wrapping one `Data`
element. -/
def fixtureDoc : Xml :=
  .elem (aws_tag ++ "TrafficHistoryResponse") none [fixtureData]

/-- A document shaped like the fixture but with the namespace absent: all
tags are bare local names. -/
def noNamespaceDoc : Xml :=
  .elem "TrafficHistoryResponse" none
    [.elem "Data" none
      [.elem "Date" (some "20200101") [],
       .elem "PageViews" none
         [.elem "PerMillion" (some "1000") [],
          .elem "PerUser" (some "2.5") []],
       .elem "Rank" (some "500") [],
       .elem "Reach" none
         [.elem "PerMillion" (some "900") []]]]

/-- A namespaced document whose `Data` element lacks the required Date
child. -/
def missingDateDoc : Xml :=
  .elem (aws_tag ++ "TrafficHistoryResponse") none
    [.elem (aws_tag ++ "Data") none
      [.elem (aws_tag ++ "Rank") (some "500") []]]

/-! ## Helper lemmas -/

/-- When no element of the list raises, `mapExcept` succeeds with exactly one
output per input, pointwise in order. -/
theorem mapExceptOkOfAll {α β ε : Type} (f : α → Except ε β) :
    ∀ l : List α, (∀ x ∈ l, exceptIsError (f x) = false) →
      ∃ ys, mapExcept f l = Except.ok ys
        ∧ List.Forall₂ (fun x y => f x = Except.ok y) l ys := by
  intro l
  induction l with
  | nil => intro _; exact ⟨[], rfl, List.Forall₂.nil⟩
  | cons x xs ih =>
    intro h
    have hx := h x (List.mem_cons_self x xs)
    cases hfx : f x with
    | error e => rw [hfx] at hx; simp [exceptIsError] at hx
    | ok y =>
      obtain ⟨ys, hys, hall⟩ := ih (fun a ha => h a (List.mem_cons_of_mem x ha))
      exact ⟨y :: ys, by simp [mapExcept, hfx, hys], List.Forall₂.cons hfx hall⟩

/-- When any element of the list raises, `mapExcept` raises. -/
theorem mapExceptErrorOfMem {α β ε : Type} (f : α → Except ε β) :
    ∀ l : List α, (∃ x ∈ l, exceptIsError (f x) = true) →
      ∃ e, mapExcept f l = Except.error e := by
  intro l
  induction l with
  | nil => rintro ⟨x, hx, _⟩; cases hx
  | cons a as ih =>
    rintro ⟨x, hx, hxe⟩
    cases hfa : f a with
    | error e => exact ⟨e, by simp [mapExcept, hfa]⟩
    | ok y =>
      rcases List.mem_cons.mp hx with rfl | hmem
      · rw [hfa] at hxe; simp [exceptIsError] at hxe
      · obtain ⟨e, he⟩ := ih ⟨x, hmem, hxe⟩
        exact ⟨e, by simp [mapExcept, hfa, he]⟩

/-- The parsed value of the fixture's PageViews/PerUser text. -/
theorem pyFloatTwoPointFive : pyFloatText (some "2.5") = Except.ok ((5 : Rat) / 2) := by
  have h2 : pyFloatOfString "2.5" = some ((5 : Rat) / 2) := by
    show (match splitDot ['2', '.', '5'] with
      | none => none
      | some p => (decimalParts p.1 p.2).map (fun r => ((1 : Int) : Rat) * r))
      = some ((5 : Rat) / 2)
    simp +decide [splitDot, decimalParts, natFromDigits, allDigitChars, List.foldl]
    norm_num
  simp [pyFloatText, h2]

/-! ## Claim theorems -/

/-- Claim C1: evaluation of the sub-query plan at the inputs the claim names.
The number of sub-queries is ceil(search_range / 31) as claimed (one for 31,
two for 62, two for 45), and for 45 the ranges are [31, 14] as claimed; but
whenever `search_range` is an exact multiple of 31 the final sub-query is
built with `Range = remainder = 0`, not 31: the plan for 62 is [31, 0] and
for the default 31 it is the single zero-length request [0]. -/
theorem c1_plan_range_values :
    (traffic_history_plan 0 1000 31 (some 0) false).map (fun l => l.map SubQuery.range)
      = .ok [0]
  ∧ (traffic_history_plan 0 1000 62 (some 0) false).map (fun l => l.map SubQuery.range)
      = .ok [31, 0]
  ∧ (traffic_history_plan 0 1000 45 (some 0) false).map (fun l => l.map SubQuery.range)
      = .ok [31, 14] :=
  ⟨by decide, by decide, by decide⟩

/-- Claim C2: the signing key `get_signature_key` derives equals the spec's
four-step chained HMAC-SHA256 reference derivation, and the final signature
`create_request` computes equals the lowercase hex encoding of
HMAC-SHA256(signing key, string to sign); both are total functions of their
string inputs. -/
theorem c2_signer_matches_reference (secret datestamp region_name service_name
    string_to_sign : String) :
    get_signature_key secret datestamp region_name service_name
      = sigv4ReferenceSigningKey secret datestamp region_name service_name
  ∧ create_request_signature secret datestamp region_name service_name string_to_sign
      = bytesToHex (hmacSha256
          (sigv4ReferenceSigningKey secret datestamp region_name service_name)
          (utf8Bytes string_to_sign)) :=
  ⟨rfl, rfl⟩

/-- Claim C3: `traffic_history` raises SearchRangeError whenever
`search_range < 1`, and whenever the effective start date plus
`search_range` days is on or after the `today` it compares against; the
error result carries no sub-queries, so it is raised before any request is
built. -/
theorem c3_validation_rejects (today1 today2 search_range : Int)
    (start_date : Option Int) (search_reverse : Bool)
    (h : search_range < 1
      ∨ effective_start today1 search_range start_date search_reverse + search_range
          ≥ today2) :
    traffic_history_plan today1 today2 search_range start_date search_reverse
      = .error .searchRangeError := by
  simp only [traffic_history_plan]
  rcases h with h | h
  · rw [if_pos h]
  · by_cases h1 : search_range < 1
    · rw [if_pos h1]
    · rw [if_neg h1, if_pos h]

/-- Claim C3 witness: a call with `search_range = 0` is rejected. -/
theorem c3_validation_rejects_witness :
    traffic_history_plan 0 100 0 none false = .error .searchRangeError :=
  c3_validation_rejects 0 100 0 none false (Or.inl (by decide))

/-- Claim C4: whenever every `Data` element of the document extracts without
raising, parsing succeeds and emits exactly one record per `Data` element of
`root.iter`, in document order, each the extraction of its element; and the
minimal one-`Data` fixture (Date 20200101, PerMillion 1000, PerUser 2.5,
Rank 500, Reach/PerMillion 900) parses to exactly that one record, with the
per-user page views carrying the value 2.5. -/
theorem c4_one_record_per_data_element :
    (∀ doc : Xml,
      (∀ d ∈ iterTag dataTag doc, exceptIsError (extractRecord d) = false) →
      ∃ recs, parse_traffic_history doc = Except.ok recs
        ∧ List.Forall₂ (fun d r => extractRecord d = Except.ok r)
            (iterTag dataTag doc) recs)
  ∧ parse_traffic_history fixtureDoc
      = Except.ok [⟨some "20200101", 1000, (5 : Rat) / 2, 500, 900⟩] := by
  constructor
  · intro doc h
    exact mapExceptOkOfAll extractRecord (iterTag dataTag doc) h
  · have hrec : extractRecord fixtureData
        = Except.ok ⟨some "20200101", 1000, (5 : Rat) / 2, 500, 900⟩ := by
      show (pyFloatText (some "2.5")).bind
          (fun pageview_puser =>
            (Except.ok (TrafficHistory.mk (some "20200101") 1000 pageview_puser 500 900)
              : Except PyErr TrafficHistory))
        = Except.ok (TrafficHistory.mk (some "20200101") 1000 ((5 : Rat) / 2) 500 900)
      rw [pyFloatTwoPointFive]
      rfl
    have hiter : iterTag dataTag fixtureDoc = [fixtureData] := rfl
    show mapExcept extractRecord (iterTag dataTag fixtureDoc) = _
    rw [hiter]
    simp [mapExcept, hrec]

/-- Claim C5: the top-level `url_info` accepts (and builds the canonical
query for) every response-group list all of whose names lie in
`valid_response_groups`, and rejects every list containing a name outside
that set with a NameError before any request is built. -/
theorem c5_response_group_validation (url : String) (response_groups : List String) :
    (response_groups.all (fun g => valid_response_groups.contains g) = true →
      url_info_query url response_groups
        = Except.ok ("Action=urlInfo&ResponseGroup="
            ++ pyQuote (String.intercalate "," response_groups)
            ++ "&Url=" ++ pyQuote url))
  ∧ (response_groups.all (fun g => valid_response_groups.contains g) = false →
      url_info_query url response_groups = Except.error PyErr.nameError) := by
  constructor
  · intro h
    simp only [url_info_query]
    rw [if_pos h]
  · intro h
    simp only [url_info_query]
    rw [if_neg (by rw [h]; decide)]

/-- Claim C6 counterexample: with the client configured for region
us-west-1, the built request URL is against the fixed host
awis.amazonaws.com, not the claimed regional host
awis.us-west-1.amazonaws.com. -/
theorem c6_host_not_regional_counterexample :
    pkgRequestUri "Action=urlInfo" = "https://awis.amazonaws.com/api?Action=urlInfo"
  ∧ pkgRequestUri "Action=urlInfo"
      ≠ "https://" ++ pkgServiceEndpoint "us-west-1" ++ "/api?Action=urlInfo" :=
  ⟨rfl, by decide⟩

/-- Claim C6 as amended: every built request URL is against the fixed host
awis.amazonaws.com at path /api followed by a question mark and the
canonical query string, for every configured region; the region-qualified
host awis.(region).amazonaws.com appears only in the canonical headers that
are signed. -/
theorem c6_fixed_host_request_url (service_region canonical_query amz : String) :
    pkgRequestUri canonical_query
      = "https://awis.amazonaws.com/api?" ++ canonical_query
  ∧ pkgCanonicalHeaders service_region amz
      = "host:" ++ ("awis." ++ service_region ++ ".amazonaws.com")
          ++ "\nx-amz-date:" ++ amz ++ "\n" :=
  ⟨congrArg (fun s => s ++ canonical_query)
    (rfl : pkgAwsBaseUrl ++ "?" = "https://awis.amazonaws.com/api?"), rfl⟩

/-- Claim C7 counterexample: a document shaped like the fixture but with the
expected namespace absent parses without error to the empty record list,
rather than failing with a ParseError. -/
theorem c7_missing_namespace_counterexample :
    parse_traffic_history noNamespaceDoc = Except.ok [] := by decide

/-- Claim C7 as amended: when any matched namespaced `Data` element fails
extraction (a required child element absent or its text missing or
unparseable), parsing raises the error to the caller rather than returning a
result; but when the expected namespace is absent no `Data` element is
matched at all and parsing returns an empty result instead of failing.
Concretely, a namespaced `Data` element lacking its Date child makes parsing
raise AttributeError. -/
theorem c7_parse_failure_behavior :
    (∀ doc : Xml,
      (∃ d ∈ iterTag dataTag doc, exceptIsError (extractRecord d) = true) →
      ∃ e, parse_traffic_history doc = Except.error e)
  ∧ (∀ doc : Xml, iterTag dataTag doc = [] → parse_traffic_history doc = Except.ok [])
  ∧ parse_traffic_history missingDateDoc = Except.error PyErr.attributeError := by
  refine ⟨?_, ?_, by decide⟩
  · intro doc h
    exact mapExceptErrorOfMem extractRecord (iterTag dataTag doc) h
  · intro doc h
    simp [parse_traffic_history, h, mapExcept]

/-- Claim C8: the two `utcnow()` reads of `create_request` are separate, so
across a midnight rollover the date portion of `amz_date` differs from
`date_stamp`: read one at 2020-01-01T23:59:59Z and read two at
2020-01-02T00:00:00Z give amz_date 20200101T235959Z but date_stamp
20200102. -/
theorem c8_rollover_mismatch :
    create_request_stamps ⟨2020, 1, 1, 23, 59, 59⟩ ⟨2020, 1, 2, 0, 0, 0⟩
      = ("20200101T235959Z", "20200102")
  ∧ (create_request_stamps ⟨2020, 1, 1, 23, 59, 59⟩ ⟨2020, 1, 2, 0, 0, 0⟩).1.data.take 8
      ≠ (create_request_stamps ⟨2020, 1, 1, 23, 59, 59⟩ ⟨2020, 1, 2, 0, 0, 0⟩).2.data :=
  ⟨by decide, by decide⟩

/-- Claim C9 counterexample: when the day advances between the two
`datetime.date.today()` reads of `traffic_history` (here day 100 at the
default-start computation and day 101 at the validation comparison), the
defaulted forward call with `search_range = 31` is not rejected: a sub-query
is built (with the zero Range of the exact-multiple sizing slip). -/
theorem c9_rollover_counterexample :
    traffic_history_plan 100 101 31 none false = .ok [⟨0, 69⟩] := by decide

/-- Claim C9 as amended: provided the two `today()` reads of the call return
the same date, calling `traffic_history` with no explicit start date and
`search_reverse` false raises the search-range error for every
`search_range >= 1`, because the defaulted start date plus `search_range`
days equals today. -/
theorem c9_default_forward_always_rejected (today search_range : Int)
    (h : 1 ≤ search_range) :
    traffic_history_plan today today search_range none false
      = .error .searchRangeError := by
  have h1 : ¬(search_range < 1) := by omega
  have h2 : today - search_range + search_range ≥ today := by omega
  simp [traffic_history_plan, effective_start, h1, h2]

/-- Claim C9 witness: the defaulted forward call with the default
`search_range = 31` on a rollover-free day 50 is rejected. -/
theorem c9_default_forward_always_rejected_witness :
    traffic_history_plan 50 50 31 none false = .error .searchRangeError :=
  c9_default_forward_always_rejected 50 31 (by decide)

/-- Claim C10: the packaged `url_info` raises AttributeError for every
input, because the read of `self.valid_response_groups` fails (neither the
constructor nor the class defines the attribute); no response-group list is
ever accepted and no request is ever built. -/
theorem c10_pkg_url_info_always_attribute_error (url : String)
    (response_groups : List String) :
    pkg_url_info url response_groups = Except.error PyErr.attributeError := rfl
